import Mathlib

/-!
Shallow embedding of the RAG-Learning repository (src/components/) in Lean 4, used to
check the natural-language specification against the code.

External collaborators (the langchain file loaders, the spacy sentence segmenter, the
Chroma vector store, the HuggingFace embedding model) perform I/O and are not part of
the repository's own logic; they are represented either as oracle parameters (functions
supplying the outcome of the external call) or as explicit effect traces, so that the
repository's own control flow — routing, guards, exception handling, accumulation — is
modelled exactly as written in the Python source.
-/

namespace RAGLearning

/-- A langchain `Document`: text (`page_content`) plus a string-keyed metadata mapping,
modelled as an association list. This is the record type every loader and the splitter
produce in `src/components`. -/
structure Document where
  page_content : String
  metadata : List (String × String)
deriving DecidableEq, Repr

/-- Exceptions that can arise inside the loaders: the `ValueError` raised by
`BlindFileLoader.load_file` for an unrecognized extension, a failure of an external
langchain loader call, and the failure of the Unstructured API call when the API key
is absent. -/
inductive LoadError where
  | unsupportedFormat (ext : String)
  | loaderFailure (msg : String)
  | missingCredential
deriving DecidableEq, Repr

/-- Python `str.lower()` restricted to ASCII letters (the extension comparisons in the
source only involve ASCII literals). -/
def asciiLower (s : String) : String :=
  ⟨s.data.map Char.toLower⟩

/-- Characters of the basename of a path: everything after the last `/`, as in the
posix `os.path` used by `os.path.splitext`. -/
def basenameChars (cs : List Char) : List Char :=
  ((cs.reverse.takeWhile (fun c => c ≠ '/')).reverse)

/-- Suffix of a character list starting at its last `.` (assumes a dot is present). -/
def lastDotSuffix (cs : List Char) : List Char :=
  '.' :: ((cs.reverse.takeWhile (fun c => c ≠ '.')).reverse)

/-- Extension of a basename, following `posixpath.splitext`: leading dots of the
basename do not start an extension; otherwise the extension runs from the last dot. -/
def extOfBasename (cs : List Char) : List Char :=
  let stripped := cs.dropWhile (fun c => c = '.')
  if stripped.contains '.' then lastDotSuffix stripped else []

/-- `os.path.splitext(p)[1]`: the extension component of a path. -/
def splitextExt (p : String) : String :=
  ⟨extOfBasename (basenameChars p.data)⟩

/-- The extension computed in `BlindFileLoader.load_file`
(doc_loader.py line 254): `os.path.splitext(file_path.lower())[1]`. -/
def extOf (file_path : String) : String :=
  splitextExt (asciiLower file_path)

/-- The format-specific loaders `load_file` can dispatch to (the `MultiFileLoader`
static methods, each of which wraps an external langchain loader). -/
inductive LoaderKind where
  | text | csv | json | pdf | docx | excel | markdown
deriving DecidableEq, Repr

/-- Outcome of invoking an external langchain loader of a given kind on a given path:
either the produced documents or a raised exception. A `LoaderOracle` abstracts the
file system and the langchain loader implementations. -/
def LoaderOracle : Type :=
  LoaderKind → String → Except LoadError (List Document)

/-- The extensions recognized by the dispatch in `BlindFileLoader.load_file`
(doc_loader.py lines 257-270). -/
def supportedExtensions : List String :=
  [".txt", ".csv", ".json", ".pdf", ".docx", ".xlsx", ".xls", ".md", ".markdown"]

/-- The extension dispatch of `BlindFileLoader.load_file` (doc_loader.py lines
257-273): which loader a lowercased extension is routed to, `none` meaning the
`else` branch that raises `ValueError("未知文件类型: ...")`. -/
def dispatchLoader (ext : String) : Option LoaderKind :=
  if ext = ".txt" then some .text
  else if ext = ".csv" then some .csv
  else if ext = ".json" then some .json
  else if ext = ".pdf" then some .pdf
  else if ext = ".docx" then some .docx
  else if ext = ".xlsx" ∨ ext = ".xls" then some .excel
  else if ext = ".md" ∨ ext = ".markdown" then some .markdown
  else none

/-- The body of the `try` block of `BlindFileLoader.load_file` (doc_loader.py lines
256-273): route on the extension, call the chosen loader, or raise `ValueError` for an
unrecognized extension. `Except.error` is a raised exception. -/
def loadFileTry (oracle : LoaderOracle) (file_path : String) :
    Except LoadError (List Document) :=
  let ext := extOf file_path
  match dispatchLoader ext with
  | some kind => oracle kind file_path
  | none => .error (.unsupportedFormat ext)

namespace BlindFileLoader

/-- `BlindFileLoader.load_file` (doc_loader.py lines 234-276) as seen by its caller:
the whole dispatch is wrapped in `try/except Exception`, whose handler prints the
error and returns `[]`, so no exception ever propagates (`Except.error` would be a
propagated exception). -/
def load_file (oracle : LoaderOracle) (file_path : String) :
    Except LoadError (List Document) :=
  match loadFileTry oracle file_path with
  | .ok docs => .ok docs
  | .error _ => .ok []

/-- `BlindFileLoader.load_dir` (doc_loader.py lines 278-311): list the directory,
join each entry onto the directory path, call `load_file` under `try/except`, and
`docs.append(temp)` whenever `temp` is truthy (non-empty). Note the `append`: each
file's whole document list is appended as a single element, so the result is a list
of per-file lists. The directory listing is passed in as `files`. -/
def load_dir (oracle : LoaderOracle) (dir_path : String) (files : List String) :
    List (List Document) :=
  files.foldl
    (fun docs file =>
      let file_path := dir_path ++ "/" ++ file
      match load_file oracle file_path with
      | .ok temp => if temp.isEmpty then docs else docs ++ [temp]
      | .error _ => docs)
    []

/-- Outcome of the external `UnstructuredLoader(file_path, partition_via_api=True,
api_key=key).load()` call as a function of the api key (`none` when the
`UNSTRUCTURED_API_KEY` environment variable is absent) and the file argument. -/
def UnstructuredOracle : Type :=
  Option String → Option String → Except LoadError (List Document)

/-- `BlindFileLoader.load_any_file` (doc_loader.py lines 181-206) as seen by its
caller: the Unstructured API call is wrapped in `try/except Exception`, whose handler
prints the error and returns `[]`, so no exception ever propagates. -/
def load_any_file (uloader : UnstructuredOracle) (file : Option String)
    (key : Option String) : Except LoadError (List Document) :=
  match uloader key file with
  | .ok docs => .ok docs
  | .error _ => .ok []

end BlindFileLoader

/-- The embedding object produced by `EmbeddingFromHF.load_model`
(embeddings.py lines 55-59): a `HuggingFaceEmbeddings` configured with a model
directory, a device string, and the normalization flag. -/
structure HFEmbeddings where
  model_name : String
  device : String
  normalize_embeddings : Bool
deriving DecidableEq, Repr

/-- Calls the repository code makes on its external collaborators (the Chroma vector
store and the HuggingFace model loader); each constructor is one I/O-performing
invocation, recorded in order in an effect trace. -/
inductive Effect where
  | createStore (name : String) (directory : Option String)
  | storeAdd (docs : List Document)
  | storeDelete (ids : List String)
  | storeUpdate (ids : List String)
  | loadEmbeddings (path : String) (device : String) (normalize : Bool)
deriving DecidableEq, Repr

/-- The `ValueError`s raised by the blank-parameter guards in
`ChromaCollection.__init__` (vector_db.py line 37) and
`EmbeddingFromHF.load_model` / `download_model` (embeddings.py lines 29 and 53). -/
inductive ConfigError where
  | blankCollection
  | blankModelDir
deriving DecidableEq, Repr

/-- Python truthiness test `not x` for an optional string argument: true for `None`
and for the empty string. -/
def pyFalsy : Option String → Bool
  | none => true
  | some s => s = ""

/-- The fields of a `ChromaCollection` instance (vector_db.py lines 39-41); the
`vector_store` handle itself is external and is represented by the
`Effect.createStore` call that constructs it. -/
structure ChromaCollection where
  name : String
  embedding_model : Option HFEmbeddings
  local_directory : Option String
deriving DecidableEq, Repr

namespace ChromaCollection

/-- `ChromaCollection.__init__` (vector_db.py lines 24-42): guard
`if not collection: raise ValueError`, then set the three fields and call
`coll_create`, which constructs the external `Chroma` store. The result pairs the
outcome (raised error or constructed instance) with the trace of external calls
performed. -/
def init (collection : Option String) (directory : Option String)
    (embedding : Option HFEmbeddings) :
    Except ConfigError ChromaCollection × List Effect :=
  if pyFalsy collection then (.error .blankCollection, [])
  else
    let name := collection.getD ""
    (.ok ⟨name, embedding, directory⟩, [.createStore name directory])

/-- The `Union[Document, List[Document]]` argument of `add_documents` /
`update_documents`. -/
inductive DocArg where
  | one (d : Document)
  | many (ds : List Document)
deriving DecidableEq, Repr

/-- The `Union[str, List[str]]` argument of `delete_documents` /
`update_documents`. -/
inductive IdArg where
  | one (s : String)
  | many (ss : List String)
deriving DecidableEq, Repr

/-- `ChromaCollection.add_documents` (vector_db.py lines 44-55): wrap a single
`Document` into a list, then unconditionally call
`self.vector_store.add_documents(documents)` on the external store. The returned
trace records the external calls performed. -/
def add_documents (_st : ChromaCollection) (documents : DocArg) : List Effect :=
  let docs := match documents with
    | .one d => [d]
    | .many ds => ds
  [.storeAdd docs]

/-- `ChromaCollection.delete_documents` (vector_db.py lines 57-68): wrap a single id
into a list, then call `self.vector_store.delete(ids)` on the external store. -/
def delete_documents (_st : ChromaCollection) (ids : IdArg) : List Effect :=
  let l := match ids with
    | .one s => [s]
    | .many ss => ss
  [.storeDelete l]

/-- `ChromaCollection.update_documents` (vector_db.py lines 70-85): wrap a single id
into a list, then delegate in one call to
`self.vector_store.update_documents(ids, documents)` on the external store (the
`documents` argument is forwarded as given). -/
def update_documents (_st : ChromaCollection) (ids : IdArg) (_documents : DocArg) :
    List Effect :=
  let l := match ids with
    | .one s => [s]
    | .many ss => ss
  [.storeUpdate l]

end ChromaCollection

namespace EmbeddingFromHF

/-- `EmbeddingFromHF.load_model` (embeddings.py lines 38-60): guard
`if not local_dir: raise ValueError`, then construct the `HuggingFaceEmbeddings`
object (which loads the model from disk — an external call, recorded in the trace). -/
def load_model (local_dir : Option String) (device : String)
    (normalize_embeddings : Bool) : Except ConfigError HFEmbeddings × List Effect :=
  if pyFalsy local_dir then (.error .blankModelDir, [])
  else
    let dir := local_dir.getD ""
    (.ok ⟨dir, device, normalize_embeddings⟩,
      [.loadEmbeddings dir device normalize_embeddings])

end EmbeddingFromHF

/-- Python `len` on a string: the number of characters (code points). This is the
default `length_function` of the langchain `TextSplitter`. -/
def strLen (s : String) : Nat := s.data.length

/-- Python `str.strip()` over ASCII whitespace: remove leading and trailing
whitespace characters. -/
def pyStrip (s : String) : String :=
  ⟨(((s.data.dropWhile Char.isWhitespace).reverse.dropWhile Char.isWhitespace).reverse)⟩

/-- Python `separator.join(docs)`. -/
def pyJoin (sep : String) : List String → String
  | [] => ""
  | [x] => x
  | x :: xs => x ++ sep ++ pyJoin sep xs

/-- Python truthiness test for the optional keyword arguments of
`Splitter.split_docs` (doc_splitter.py lines 50-60): an optional number is truthy
when present and non-zero. -/
def pyTruthyNat : Option Nat → Bool
  | none => false
  | some n => n ≠ 0

/-- Effective `chunk_size` reaching the splitter: `Splitter.split_docs` forwards
`chunk_size` only when truthy, otherwise the langchain `TextSplitter` default 4000
applies. -/
def effChunkSize (chunk_size : Option Nat) : Nat :=
  if pyTruthyNat chunk_size then chunk_size.getD 0 else 4000

/-- Effective `chunk_overlap`: forwarded only when truthy, default 200. -/
def effChunkOverlap (chunk_overlap : Option Nat) : Nat :=
  if pyTruthyNat chunk_overlap then chunk_overlap.getD 0 else 200

/-- Effective `separator`: forwarded only when truthy (present and non-empty),
default `"\n\n"` from `SpacyTextSplitter`. -/
def effSeparator (separator : Option String) : String :=
  match separator with
  | none => "\n\n"
  | some s => if s = "" then "\n\n" else s

/-- `TextSplitter._join_docs(docs, separator)` from langchain_text_splitters, which
`SpacyTextSplitter` (constructed in `Splitter.split_docs`, doc_splitter.py lines
61-64) inherits: join with the separator, strip (the base splitter's own
`strip_whitespace` is left at its default `True` — `Splitter` only forwards the flag
to the spacy layer), and drop the chunk when the result is empty. -/
def joinDocs (sep : String) (docs : List String) : Option String :=
  let text := pyStrip (pyJoin sep docs)
  if text = "" then none else some text

/-- The `while` loop inside `TextSplitter._merge_splits` that pops leading splits
from `current_doc` (keeping at most `chunk_overlap` units of trailing context)
before the next split of length `dLen` is appended. Recursion is on `current_doc`;
when it is empty the running total is 0 and the loop condition is false. -/
def popWhile (chunkSize chunkOverlap sepLen dLen : Nat) :
    List String → Nat → List String × Nat
  | [], total => ([], total)
  | c :: rest, total =>
    if total > chunkOverlap ∨
        (total + dLen + (if (c :: rest).length > 0 then sepLen else 0) > chunkSize
          ∧ total > 0) then
      popWhile chunkSize chunkOverlap sepLen dLen rest
        (total - (strLen c + if (c :: rest).length > 1 then sepLen else 0))
    else (c :: rest, total)

/-- Accumulator of `TextSplitter._merge_splits`: the finished chunks, the splits of
the chunk under construction, and the running length total. -/
structure MergeState where
  docs : List String
  current : List String
  total : Nat
deriving DecidableEq, Repr

/-- One iteration of the `for d in splits` loop of `TextSplitter._merge_splits`:
if appending `d` would overflow `chunk_size`, close the current chunk (when
non-empty) and pop leading splits down to the overlap; then append `d` and update
the total. -/
def mergeStep (chunkSize chunkOverlap sepLen : Nat) (sep : String) (st : MergeState)
    (d : String) : MergeState :=
  let dLen := strLen d
  let st1 :=
    if st.total + dLen + (if st.current.length > 0 then sepLen else 0) > chunkSize then
      if st.current.length > 0 then
        let docs' := match joinDocs sep st.current with
          | some doc => st.docs ++ [doc]
          | none => st.docs
        let pop := popWhile chunkSize chunkOverlap sepLen dLen st.current st.total
        MergeState.mk docs' pop.1 pop.2
      else st
    else st
  let current' := st1.current ++ [d]
  MergeState.mk st1.docs current'
    (st1.total + dLen + (if current'.length > 1 then sepLen else 0))

/-- `TextSplitter._merge_splits(splits, separator)` from langchain_text_splitters:
greedily merge the sentence splits into chunks of at most `chunk_size` units,
re-keeping at most `chunk_overlap` trailing units between neighbours, and close the
last chunk at the end. This is the merge `SpacyTextSplitter.split_text` applies to
the spacy sentence segments. -/
def mergeSplits (chunkSize chunkOverlap : Nat) (sep : String)
    (splits : List String) : List String :=
  let fin := splits.foldl (mergeStep chunkSize chunkOverlap (strLen sep) sep)
    (MergeState.mk [] [] 0)
  match joinDocs sep fin.current with
  | some doc => fin.docs ++ [doc]
  | none => fin.docs

/-- `TextSplitter.create_documents(texts, metadatas)` from langchain_text_splitters,
specialised to the configuration `Splitter.split_docs` produces (`add_start_index`
is left at its default `False`, so no index field is ever added): for each
text/metadata pair, each chunk of `split_text(text)` becomes a `Document` carrying a
copy of that metadata. `splitText` is the per-text chunking
(`SpacyTextSplitter.split_text`). -/
def create_documents (splitText : String → List String) :
    List (String × List (String × String)) → List Document
  | [] => []
  | (text, meta) :: rest =>
    ((splitText text).map (fun chunk => Document.mk chunk meta))
      ++ create_documents splitText rest

/-- `TextSplitter.split_documents(documents)` from langchain_text_splitters: collect
the texts and metadatas of the documents and call `create_documents`. -/
def split_documents (splitText : String → List String) (docs : List Document) :
    List Document :=
  create_documents splitText (docs.map (fun d => (d.page_content, d.metadata)))

/-- The dynamic `target` argument of `Splitter.split_docs`: a string, one
`Document`, or a list of `Document`s. -/
inductive SplitTarget where
  | text (s : String)
  | doc (d : Document)
  | docs (ds : List Document)
deriving DecidableEq, Repr

/-- What a call to `Splitter.split_docs` does, as seen by its caller: fall off the
end returning `None` (`noBranch`), return a list of strings or of documents, raise a
dynamic type error downstream when the target does not fit the chosen branch, or
raise the `ValueError` of `TextSplitter.__init__` when `chunk_overlap` exceeds
`chunk_size`. -/
inductive SplitOutcome where
  | noBranch
  | texts (ts : List String)
  | docs (ds : List Document)
  | typeError
  | ctorError
deriving DecidableEq, Repr

namespace Splitter

/-- `Splitter.split_docs` (doc_splitter.py lines 16-70): build the keyword arguments
(truthy optional parameters only), construct the `SpacyTextSplitter` (whose base
`TextSplitter.__init__` raises when the effective `chunk_overlap` exceeds the
effective `chunk_size`), then dispatch on `mode`; no `else` branch exists, so an
unmatched mode falls through to Python's implicit `return None`. The spacy sentence
segmenter (selected by `pipeline` and `max_length`, and affected by
`strip_whitespace`) is external and passed in as the oracle `sents`; the
`strip_whitespace` argument itself only reaches that spacy layer. -/
def split_docs (sents : String → List String) (target : SplitTarget) (mode : String)
    (separator : Option String) (chunk_size chunk_overlap : Option Nat)
    (_strip_whitespace : Bool) : SplitOutcome :=
  let sep := effSeparator separator
  let cs := effChunkSize chunk_size
  let co := effChunkOverlap chunk_overlap
  if co > cs then .ctorError
  else
    let splitText := fun t => mergeSplits cs co sep (sents t)
    if mode = "text" then
      match target with
      | .text s => .texts (splitText s)
      | _ => .typeError
    else if mode = "doc" then
      match target with
      | .doc d => .docs (split_documents splitText [d])
      | _ => .typeError
    else if mode = "docs" then
      match target with
      | .docs ds => .docs (split_documents splitText ds)
      | _ => .typeError
    else .noBranch

end Splitter

/-- A sentence-segmentation oracle for concrete test runs, behaving as a spacy
English pipeline does on the tiny inputs used below: `"A. B."` is segmented into
the two sentences `"A."` and `"B."`; any other input is one segment. -/
def sents0 : String → List String :=
  fun t => if t = "A. B." then ["A.", "B."] else [t]

example :
    Splitter.split_docs sents0 (.doc (Document.mk "A. B." [])) "doc"
      none none none true
      = .docs [Document.mk "A.\n\nB." []] := by decide

example :
    Splitter.split_docs sents0 (.docs [Document.mk "A. B." [("source", "a.txt")]])
      "docs" none none none true
      = .docs [Document.mk "A.\n\nB." [("source", "a.txt")]] := by decide

example :
    Splitter.split_docs sents0 (.doc (Document.mk "  hello. " [])) "doc"
      none none none true
      = .docs [Document.mk "hello." []] := by decide

/-- A loader oracle for concrete test runs: every external loader call fails.
For inputs routed to the unrecognized-extension branch the oracle is never
consulted, so any oracle exhibits the same behaviour there. -/
def oracle0 : LoaderOracle := fun _ _ => .error (.loaderFailure "io")

example : extOf "file.xyz" = ".xyz" := by decide
example : extOf "A.TXT" = ".txt" := by decide
example : extOf "dir.d/archive" = "" := by decide
example : extOf ".bashrc" = "" := by decide
example : extOf "a.b.c" = ".c" := by decide
example : extOf "data.jsonl" = ".jsonl" := by decide
example : BlindFileLoader.load_file oracle0 "file.xyz" = .ok [] := rfl

/-- Sample documents for concrete batch-loading runs. -/
def d1 : Document := Document.mk "alpha" [("source", "d/a.txt")]

/-- Second sample document. -/
def d2 : Document := Document.mk "beta" [("source", "d/b.txt")]

/-- A loader oracle for concrete batch runs: the text loader yields `[d1]` for
`d/a.txt` and `[d2]` for `d/b.txt`; every other external call fails. -/
def oracle2 : LoaderOracle := fun kind path =>
  if kind = .text ∧ path = "d/a.txt" then .ok [d1]
  else if kind = .text ∧ path = "d/b.txt" then .ok [d2]
  else .error (.loaderFailure "io")

/-- If an extension is outside the supported list, the dispatch of
`BlindFileLoader.load_file` reaches its `else` branch. -/
theorem dispatch_none_of_unsupported (ext : String)
    (h : ext ∉ supportedExtensions) : dispatchLoader ext = none := by
  simp only [supportedExtensions, List.mem_cons, List.not_mem_nil, or_false,
    not_or] at h
  obtain ⟨h1, h2, h3, h4, h5, h6, h7, h8, h9⟩ := h
  simp [dispatchLoader, h1, h2, h3, h4, h5, h6, h7, h8, h9]

/-- C1: for a path whose lowercased extension is unsupported, the dispatch of
`BlindFileLoader.load_file` raises the unrecognized-extension `ValueError`
internally, but the function's own `except` handler catches it, logs it, and
returns the empty list — the caller receives `[]` and no exception. -/
theorem C1_unrecognized_ext_caught_and_emptied (oracle : LoaderOracle)
    (p : String) (h : extOf p ∉ supportedExtensions) :
    loadFileTry oracle p = .error (.unsupportedFormat (extOf p)) ∧
    BlindFileLoader.load_file oracle p = .ok [] := by
  have hd := dispatch_none_of_unsupported (extOf p) h
  refine ⟨?_, ?_⟩ <;>
    simp [loadFileTry, BlindFileLoader.load_file, hd]

/-- C1 witness: the amended behaviour at the concrete path `"file.xyz"`. -/
theorem C1_witness :
    extOf "file.xyz" ∉ supportedExtensions ∧
    (loadFileTry oracle0 "file.xyz"
        = .error (.unsupportedFormat (extOf "file.xyz")) ∧
      BlindFileLoader.load_file oracle0 "file.xyz" = .ok []) :=
  ⟨by decide, C1_unrecognized_ext_caught_and_emptied oracle0 "file.xyz" (by decide)⟩

/-- C1 counterexample: at `"file.xyz"` (lowercased extension `".xyz"`, not
supported) `BlindFileLoader.load_file` returns the result `[]` to its caller
instead of raising: the claim that it raises to its caller is false. -/
theorem C1_counterexample :
    extOf "file.xyz" = ".xyz" ∧
    ".xyz" ∉ supportedExtensions ∧
    BlindFileLoader.load_file oracle0 "file.xyz" = .ok [] :=
  ⟨by decide, by decide, rfl⟩

/-- C2: evaluating `BlindFileLoader.load_dir` at a directory holding two loadable
text files and one file with an unsupported extension. The failing file is excluded
and no exception escapes, but the result is the nested list `[[d1], [d2]]`
(`docs.append(temp)` appends each per-file list as one element) — not the flat
`[d1, d2]` promised by the claim, by the function's own `-> List[Document]`
annotation, and by the sibling directory loaders which use `docs.extend(temp)`. -/
theorem C2_load_dir_returns_nested_lists :
    BlindFileLoader.load_dir oracle2 "d" ["a.txt", "c.xyz", "b.txt"]
      = [[d1], [d2]] := by
  decide

/-- C3: a blank (`None` or empty) collection name makes `ChromaCollection.__init__`
raise `ValueError` before the store is created, and a blank model path makes
`EmbeddingFromHF.load_model` raise `ValueError` before the model is loaded: in both
cases the outcome is the error and the effect trace is empty (no state created, no
I/O attempted). -/
theorem C3_blank_inputs_raise_immediately
    (collection directory : Option String) (embedding : Option HFEmbeddings)
    (local_dir : Option String) (device : String) (normalize : Bool)
    (hc : pyFalsy collection = true) (hm : pyFalsy local_dir = true) :
    ChromaCollection.init collection directory embedding
      = (.error .blankCollection, []) ∧
    EmbeddingFromHF.load_model local_dir device normalize
      = (.error .blankModelDir, []) := by
  refine ⟨?_, ?_⟩ <;>
    simp [ChromaCollection.init, EmbeddingFromHF.load_model, hc, hm]

/-- C3 witness: the guards at the concrete blank inputs `Some ""` (empty collection
name) and `None` (absent model path). -/
theorem C3_witness :
    pyFalsy (some "") = true ∧ pyFalsy none = true ∧
    (ChromaCollection.init (some "") (some "./db") none
        = (.error .blankCollection, []) ∧
      EmbeddingFromHF.load_model none "cpu" false
        = (.error .blankModelDir, [])) :=
  ⟨by decide, by decide,
    C3_blank_inputs_raise_immediately (some "") (some "./db") none none "cpu" false
      (by decide) (by decide)⟩

/-- A concrete collection instance for counterexample runs. -/
def coll0 : ChromaCollection := ChromaCollection.mk "c" none none

/-- C4 counterexample: `ChromaCollection.add_documents` called with the empty list
still performs exactly one call on the backing store (its effect trace is the
non-empty `[storeAdd []]`), so the claimed empty-input no-op guard — "performs no
I/O" — does not exist in the code. -/
theorem C4_counterexample :
    ChromaCollection.add_documents coll0 (.many []) = [Effect.storeAdd []] ∧
    ([Effect.storeAdd []] : List Effect) ≠ [] :=
  ⟨rfl, by decide⟩

/-- C4: for every collection state, `add_documents` with an empty document list is
forwarded unguarded to the backing vector store: exactly one external store call is
made, carrying the empty list (no documents are handed over to be added). -/
theorem C4_empty_add_still_calls_store (st : ChromaCollection) :
    ChromaCollection.add_documents st (.many []) = [Effect.storeAdd []] := by
  simp [ChromaCollection.add_documents]

/-- C7 counterexample: `"data.jsonl"` has lowercased extension `".jsonl"`, which the
dispatch of `BlindFileLoader.load_file` does not route to the JSON loader (or any
loader): it reaches the unrecognized-type branch, whose internal error is caught and
turned into the empty result. -/
theorem C7_counterexample :
    extOf "data.jsonl" = ".jsonl" ∧
    dispatchLoader ".jsonl" = none ∧
    loadFileTry oracle0 "data.jsonl" = .error (.unsupportedFormat ".jsonl") ∧
    BlindFileLoader.load_file oracle0 "data.jsonl" = .ok [] :=
  ⟨by decide, by decide, rfl, rfl⟩

/-- C7: only `.json` is routed to the JSON loader by `BlindFileLoader.load_file`;
a `.jsonl` path falls through to the unrecognized-extension branch, raising
internally and yielding `[]` to the caller. -/
theorem C7_jsonl_not_routed_to_json_loader (oracle : LoaderOracle) (p q : String)
    (hp : extOf p = ".json") (hq : extOf q = ".jsonl") :
    loadFileTry oracle p = oracle .json p ∧
    loadFileTry oracle q = .error (.unsupportedFormat ".jsonl") ∧
    BlindFileLoader.load_file oracle q = .ok [] := by
  have h1 : dispatchLoader ".json" = some .json := by decide
  have h2 : dispatchLoader ".jsonl" = none := by decide
  refine ⟨?_, ?_, ?_⟩ <;>
    simp [loadFileTry, BlindFileLoader.load_file, hp, hq, h1, h2]

/-- C7 witness: the amended routing at the concrete paths `"a.json"` and
`"b.jsonl"`. -/
theorem C7_witness :
    extOf "a.json" = ".json" ∧ extOf "b.jsonl" = ".jsonl" ∧
    (loadFileTry oracle0 "a.json" = oracle0 .json "a.json" ∧
      loadFileTry oracle0 "b.jsonl" = .error (.unsupportedFormat ".jsonl") ∧
      BlindFileLoader.load_file oracle0 "b.jsonl" = .ok []) :=
  ⟨by decide, by decide,
    C7_jsonl_not_routed_to_json_loader oracle0 "a.json" "b.jsonl"
      (by decide) (by decide)⟩

/-- An Unstructured-API oracle for concrete runs: with the credential absent
(`key = none`, the environment variable unset) the external call raises; with a
credential it succeeds. -/
def uoracle0 : BlindFileLoader.UnstructuredOracle := fun key _file =>
  match key with
  | none => .error .missingCredential
  | some _ => .ok []

/-- C8 counterexample: with the API credential absent the external Unstructured
call raises, but `BlindFileLoader.load_any_file` returns the empty list `[]` to its
caller — an empty result with no error signalled to the caller, i.e. exactly the
silent per-file skip the claim rules out. -/
theorem C8_counterexample :
    uoracle0 none (some "f.pdf") = .error .missingCredential ∧
    BlindFileLoader.load_any_file uoracle0 (some "f.pdf") none = .ok [] :=
  ⟨rfl, rfl⟩

/-- C8: whenever the external Unstructured call raises (in particular when the API
credential is absent), `load_any_file` catches the exception, logs it to stdout,
and returns the empty list; no error reaches the caller. -/
theorem C8_missing_credential_swallowed
    (uloader : BlindFileLoader.UnstructuredOracle) (file key : Option String)
    (e : LoadError) (h : uloader key file = .error e) :
    BlindFileLoader.load_any_file uloader file key = .ok [] := by
  simp [BlindFileLoader.load_any_file, h]

/-- C8 witness: the amended behaviour at a concrete file with the credential
absent. -/
theorem C8_witness :
    uoracle0 none (some "g.docx") = .error .missingCredential ∧
    BlindFileLoader.load_any_file uoracle0 (some "g.docx") none = .ok [] :=
  ⟨rfl, C8_missing_credential_swallowed uoracle0 (some "g.docx") none
    .missingCredential rfl⟩

/-- Every document produced by `create_documents` carries the metadata of one of
the text/metadata pairs it was given. -/
theorem metadata_mem_create_documents (f : String → List String)
    (l : List (String × List (String × String))) (c : Document)
    (hc : c ∈ create_documents f l) : ∃ p ∈ l, c.metadata = p.2 := by
  induction l with
  | nil => simp [create_documents] at hc
  | cons hd tl ih =>
    obtain ⟨t, m⟩ := hd
    simp only [create_documents, List.mem_append, List.mem_map] at hc
    rcases hc with ⟨a, _, rfl⟩ | h
    · exact ⟨(t, m), by simp, rfl⟩
    · obtain ⟨p, hp, hm⟩ := ih h
      exact ⟨p, by simp [hp], hm⟩

/-- Every chunk produced by `split_documents` carries the metadata of one of the
source documents. -/
theorem metadata_mem_split_documents (f : String → List String)
    (ds : List Document) (c : Document) (hc : c ∈ split_documents f ds) :
    ∃ src ∈ ds, c.metadata = src.metadata := by
  obtain ⟨p, hp, hm⟩ := metadata_mem_create_documents f _ c hc
  obtain ⟨src, hsrc, rfl⟩ := List.mem_map.mp hp
  exact ⟨src, hsrc, hm⟩

/-- C6: every chunk `Splitter.split_docs` (mode `"docs"`) produces carries,
verbatim, the metadata of one of the source documents. (No `sequence_index` — or
any other — field is added: the chunk metadata IS a source metadata mapping.) -/
theorem C6_chunk_metadata_verbatim (sents : String → List String)
    (separator : Option String) (chunk_size chunk_overlap : Option Nat) (sw : Bool)
    (ds out : List Document) (chunk : Document)
    (hout : Splitter.split_docs sents (.docs ds) "docs" separator chunk_size
      chunk_overlap sw = .docs out)
    (hchunk : chunk ∈ out) :
    ∃ src ∈ ds, chunk.metadata = src.metadata := by
  unfold Splitter.split_docs at hout
  by_cases hco : effChunkOverlap chunk_overlap > effChunkSize chunk_size
  · simp [hco] at hout
  · simp [hco] at hout
    subst hout
    exact metadata_mem_split_documents _ ds chunk hchunk

/-- C6 witness: the metadata-inheritance theorem applied to a concrete one-document
input. -/
theorem C6_witness :
    ∃ src ∈ [Document.mk "A. B." [("source", "a.txt")]],
      (Document.mk "A.\n\nB." [("source", "a.txt")]).metadata = src.metadata :=
  C6_chunk_metadata_verbatim sents0 none none none true
    [Document.mk "A. B." [("source", "a.txt")]]
    [Document.mk "A.\n\nB." [("source", "a.txt")]]
    (Document.mk "A.\n\nB." [("source", "a.txt")])
    (by decide) (by decide)

/-- C6 counterexample: splitting a concrete document whose metadata is
`[("source", "a.txt")]` yields one chunk whose metadata is exactly that mapping —
it contains no `"sequence_index"` key (and a langchain `Document` has no other field
that could record one), so the claim that every chunk additionally carries a
`sequence_index` field is false. -/
theorem C6_counterexample :
    Splitter.split_docs sents0 (.docs [Document.mk "A. B." [("source", "a.txt")]])
      "docs" none none none true
      = .docs [Document.mk "A.\n\nB." [("source", "a.txt")]] ∧
    ([("source", "a.txt")] : List (String × String)).lookup "sequence_index"
      = none := by
  refine ⟨by decide, by decide⟩

/-- Merging a single sentence split produces exactly that split, stripped —
whatever `chunk_size` and `chunk_overlap` are (an oversized single unit is kept
whole). -/
theorem mergeSplits_singleton (cs co : Nat) (sep s : String)
    (h : pyStrip s ≠ "") : mergeSplits cs co sep [s] = [pyStrip s] := by
  unfold mergeSplits mergeStep
  simp [joinDocs, pyJoin, h]

/-- C9: if the boundary model returns the document's text as a single segment (in
particular, for single-sentence documents) and the stripped text is non-empty, then
`Splitter.split_docs` (mode `"doc"`, default sizes, `strip_whitespace` set) returns
exactly one chunk, whose text is the input text with leading and trailing
whitespace stripped, carrying the input's metadata. -/
theorem C9_single_segment_one_stripped_chunk (sents : String → List String)
    (d : Document)
    (h1 : sents d.page_content = [d.page_content])
    (h2 : pyStrip d.page_content ≠ "")
    (_h3 : strLen d.page_content ≤ effChunkSize none) :
    Splitter.split_docs sents (.doc d) "doc" none none none true
      = .docs [Document.mk (pyStrip d.page_content) d.metadata] := by
  have hm := mergeSplits_singleton 4000 200 "\n\n" d.page_content h2
  simp [Splitter.split_docs, split_documents, create_documents, h1, hm,
    effChunkSize, effChunkOverlap, effSeparator, pyTruthyNat]

/-- C9 witness: the amended single-segment property at a concrete document. -/
theorem C9_witness :
    sents0 "hello." = ["hello."] ∧ pyStrip "hello." ≠ "" ∧
    strLen "hello." ≤ effChunkSize none ∧
    Splitter.split_docs sents0 (.doc (Document.mk "hello." [("k", "v")])) "doc"
      none none none true
      = .docs [Document.mk (pyStrip "hello.") [("k", "v")]] :=
  ⟨by decide, by decide, by decide,
    C9_single_segment_one_stripped_chunk sents0 (Document.mk "hello." [("k", "v")])
      (by decide) (by decide) (by decide)⟩

/-- C9 counterexample: the document `"A. B."` has length 5 ≤ chunk_size (default
4000) and `strip_whitespace` is set, yet the chunk returned has text
`"A.\n\nB."` — the sentence segments rejoined with the default `"\n\n"` separator —
which is not the stripped input text `"A. B."`; the claim is false as stated. -/
theorem C9_counterexample :
    strLen "A. B." ≤ effChunkSize none ∧
    Splitter.split_docs sents0 (.doc (Document.mk "A. B." [])) "doc"
      none none none true
      = .docs [Document.mk "A.\n\nB." []] ∧
    "A.\n\nB." ≠ pyStrip "A. B." := by
  refine ⟨by decide, by decide, by decide⟩

/-- C10: for every mode other than the literals `"text"`, `"doc"` and `"docs"`
(with the size parameters at their defaults, so the splitter constructor succeeds),
`Splitter.split_docs` matches no branch of the mode dispatch and falls through to
Python's implicit `return None` — it neither raises nor returns a list, whatever the
target and the remaining arguments are. -/
theorem C10_unmatched_mode_returns_none (sents : String → List String)
    (target : SplitTarget) (mode : String) (separator : Option String) (sw : Bool)
    (h1 : mode ≠ "text") (h2 : mode ≠ "doc") (h3 : mode ≠ "docs") :
    Splitter.split_docs sents target mode separator none none sw = .noBranch := by
  simp [Splitter.split_docs, effChunkSize, effChunkOverlap, pyTruthyNat,
    h1, h2, h3]

/-- C10 witness: the fall-through at the concrete unmatched mode `"xyz"`. -/
theorem C10_witness :
    ("xyz" : String) ≠ "text" ∧ ("xyz" : String) ≠ "doc" ∧
    ("xyz" : String) ≠ "docs" ∧
    Splitter.split_docs sents0 (.text "A. B.") "xyz" none none none true
      = .noBranch :=
  ⟨by decide, by decide, by decide,
    C10_unmatched_mode_returns_none sents0 (.text "A. B.") "xyz" none true
      (by decide) (by decide) (by decide)⟩

end RAGLearning
